import Mathlib

/-!
Verification of the support-copilot triage core (`app.py`).

The shallow embedding below models:
* the severity classifier (`classify`, from `analyze_issue` lines 61-72),
* the issue store queries as pure functions over a `List Issue`
  (SQLite rows; timestamps are modelled as integer seconds, whose order
  agrees with the chronological/lexicographic order of the stored
  ISO-format timestamp strings),
* the analysis composer `analyze_issue`,
* the template generator `generate_template` (Python f-string, modelled as
  string concatenation) together with a dict-access wrapper
  `generate_template_dict` in which a missing key yields `none` (KeyError),
* the conversation summarizer `summarize_conversation`,
* the dispatch wrapper `api_endpoint`, returning `Except` so that an
  uncaught Python exception is an `Except.error`.
-/

namespace SupportApp

/-- Boolean test that `needle` is a leading segment of `hay`. -/
def isPrefixB : List Char → List Char → Bool
  | [], _ => true
  | _ :: _, [] => false
  | a :: as, b :: bs => a == b && isPrefixB as bs

/-- Boolean substring test, the semantics of Python's `word in text`. -/
def hasSubstr (needle : List Char) : List Char → Bool
  | [] => isPrefixB needle []
  | c :: t => isPrefixB needle (c :: t) || hasSubstr needle t

/-- Per-character lowercasing, the semantics of `str.lower()` on the
ASCII keywords and descriptions involved here. -/
def toLowerStr (s : String) : String :=
  String.mk (s.data.map Char.toLower)

/-- Severity keyword table from `analyze_issue` (lines 62-66); a Python
dict preserves insertion order, so it is an ordered association list. -/
def keywords : List (String × List String) :=
  [("High", ["failure", "crash", "urgent"]),
   ("Normal", ["issue", "problem"]),
   ("Low", ["glitch", "minor"])]

/-- Severity classification loop of `analyze_issue` (lines 67-72): the
description is lowercased, the keyword table is scanned in order, and the
first severity with any substring match is returned; default `"Normal"`. -/
def classify (issue_description : String) : String :=
  match keywords.find? (fun p =>
      p.2.any (fun w => hasSubstr w.data (toLowerStr issue_description).data)) with
  | some p => p.1
  | none => "Normal"

/-- Case-insensitive test that any keyword of `ws` occurs in `d`. -/
def matchesSet (ws : List String) (d : String) : Bool :=
  ws.any (fun w => hasSubstr w.data (toLowerStr d).data)

/-- Row of the `issues` table (the `id` column is store-assigned and not
read by any of the modelled queries). -/
structure Issue where
  customer_id : String
  issue_description : String
  created_at : Int
  severity : String
  status : String
  product_id : String
  resolution : Option String
deriving DecidableEq

/-- Query `SELECT COUNT(*) FROM issues WHERE customer_id = ?` (line 53). -/
def count_issues (store : List Issue) (customer_id : String) : Nat :=
  (store.filter (fun i => i.customer_id == customer_id)).length

/-- Query `SELECT issue_description, resolution FROM issues WHERE
product_id = ? AND status = 'Resolved'` (lines 57-58), rows in
store-retrieval order. -/
def find_similar (store : List Issue) (product_id : String) :
    List (String × Option String) :=
  (store.filter (fun i => i.product_id == product_id && i.status == "Resolved")).map
    (fun i => (i.issue_description, i.resolution))

/-- One entry of the `similar_issues` list built on line 82. -/
structure SimilarIssue where
  description : String
  resolution : String
deriving DecidableEq

/-- Python truthiness substitution `res if res else 'No resolution
provided'` (line 82): `None` and the empty string are falsy. -/
def resolutionOrDefault : Option String → String
  | none => "No resolution provided"
  | some r => if r = "" then "No resolution provided" else r

/-- The list comprehension of line 82, mapping fetched rows to entries. -/
def similarEntries (rows : List (String × Option String)) : List SimilarIssue :=
  rows.map (fun r => { description := r.1, resolution := resolutionOrDefault r.2 })

/-- Escalation check of lines 74-78: the count of issues of the customer
with severity High, status Open and `created_at < now - 24h` is positive.
24 hours is 86400 seconds. -/
def hasUnattendedCritical (store : List Issue) (customer_id : String) (now : Int) : Bool :=
  decide (0 < (store.filter (fun i =>
    i.customer_id == customer_id && i.severity == "High" && i.status == "Open" &&
      decide (i.created_at < now - 86400))).length)

/-- The transient analysis record built on lines 80-85. -/
structure Analysis where
  past_issues_count : Nat
  similar_issues : List SimilarIssue
  severity : String
  has_critical_issues : Bool
deriving DecidableEq

/-- `analyze_issue` (lines 49-86): counts past issues, fetches similar
resolved issues, classifies severity, runs the escalation check, and
returns the severity together with the composed analysis. -/
def analyze_issue (issue_description customer_id product_id : String)
    (store : List Issue) (now : Int) : String × Analysis :=
  let past_issues := count_issues store customer_id
  let similar_issues := find_similar store product_id
  let severity := classify issue_description
  let critical_issues := hasUnattendedCritical store customer_id now
  (severity,
   { past_issues_count := past_issues,
     similar_issues := similarEntries similar_issues,
     severity := severity,
     has_critical_issues := critical_issues })

/-- Critical-notice text of the conditional f-string fragment on line 98:
the notice when `has_critical_issues` holds, the empty string otherwise. -/
def criticalNotice (has_critical_issues : Bool) : String :=
  if has_critical_issues then
    "Note: Critical issues detected that need urgent attention."
  else ""

/-- Recommended-step expression of line 101: the resolution of the first
similar issue when the list is non-empty (Python truthiness of a list),
else the literal fallback. -/
def recommendedStep (similar_issues : List SimilarIssue) : String :=
  match similar_issues with
  | [] => "Please provide more details."
  | first :: _ => first.resolution

/-- `generate_template` (lines 89-106): the f-string, as concatenation of
its literal fragments with the interpolated expressions. -/
def generate_template (issue_description : String) (analysis : Analysis) : String :=
  "\nDear Customer,\n\nThank you for reaching out regarding: \"" ++ issue_description ++
  "\".\n\nBased on our analysis:\n- Issue Severity: " ++ analysis.severity ++
  "\n- Past Issues: " ++ toString analysis.past_issues_count ++
  " previous issues\n- " ++ criticalNotice analysis.has_critical_issues ++
  "\n\nRecommended Steps:\n1. " ++ recommendedStep analysis.similar_issues ++
  "\n\nBest regards,\nSupport Team\n"

/-- An analysis passed as a Python dict, each key possibly missing (the
dispatch layer defaults a missing `analysis` to the empty dict `{}`). -/
structure AnalysisDict where
  severity : Option String
  past_issues_count : Option Nat
  similar_issues : Option (List SimilarIssue)
  has_critical_issues : Option Bool
deriving DecidableEq

/-- The empty dict `{}` used as dispatch default on line 137. -/
def emptyAnalysisDict : AnalysisDict := ⟨none, none, none, none⟩

/-- `generate_template` viewed through Python dict access: the f-string
reads `severity`, `past_issues_count`, `has_critical_issues` and
`similar_issues` unconditionally, so a missing key raises KeyError,
modelled as `none`. -/
def generate_template_dict (issue_description : String) (analysis : AnalysisDict) :
    Option String :=
  match analysis.severity, analysis.past_issues_count, analysis.similar_issues,
      analysis.has_critical_issues with
  | some sev, some n, some sims, some crit =>
      some (generate_template issue_description
        { past_issues_count := n, similar_issues := sims,
          severity := sev, has_critical_issues := crit })
  | _, _, _, _ => none

/-- Summarization loop of `summarize_conversation` (lines 114-117), over
the fetched `(message, sender)` rows: `msg[:50]` takes the first 50
characters and the `...` marker is appended unconditionally. -/
def summarize_conversation (messages : List (String × String)) : String :=
  messages.foldl
    (fun summary p =>
      summary ++ "- " ++ p.2 ++ ": " ++ String.mk (p.1.data.take 50) ++ "...\n")
    "Conversation Summary:\n"

/-- Row of the `conversations` table. -/
structure ConversationRow where
  issue_id : Int
  message : String
  sender : String
  timestamp : Int
deriving DecidableEq

/-- Query `SELECT message, sender FROM conversations WHERE issue_id = ?
ORDER BY timestamp` (line 111); ties keep insertion order (stable sort). -/
def list_messages (rows : List ConversationRow) (issue_id : Int) :
    List (String × String) :=
  ((rows.filter (fun r => r.issue_id == issue_id)).mergeSort
    (fun a b => decide (a.timestamp ≤ b.timestamp))).map (fun r => (r.message, r.sender))

/-- Sample rows seeded by `init_db` (lines 37-44); timestamps in seconds
(2025-07-11 10:00:00, 2025-07-12 08:00:00, 2025-07-10 15:00:00 UTC). -/
def init_db_issues : List Issue :=
  [⟨"CUST001", "Login failure", 1752228000, "High", "Open", "PROD001", none⟩,
   ⟨"CUST001", "Payment issue", 1752307200, "Normal", "Open", "PROD002", none⟩,
   ⟨"CUST002", "UI glitch", 1752159600, "Low", "Resolved", "PROD001",
     some "Restart the application"⟩]

/-- `init_db` seeds no conversation rows. -/
def init_db_conversations : List ConversationRow := []

/-- Request payload of `api_endpoint`: a Python dict whose keys may be
absent (`data.get` with defaults). -/
structure RequestData where
  issue_description : Option String
  customer_id : Option String
  product_id : Option String
  analysis : Option AnalysisDict
  issue_id : Option Int

/-- Payload of the `data` field of an `api_endpoint` response. -/
inductive ResponseData where
  | empty
  | analyzeData (severity : String) (analysis : Analysis)
  | templateData (template : String)
  | summaryData (summary : String)
deriving DecidableEq

/-- Structured response `{"status": ..., "data": ...}` of `api_endpoint`. -/
structure ApiResponse where
  status : String
  data : ResponseData
deriving DecidableEq

/-- `api_endpoint` (lines 120-150). An uncaught Python exception is an
`Except.error`. Line 126 calls `analyze_issue(description, customer_id,
product_id)` although the function signature (line 49) requires a fourth
argument `conn` (the connection built on line 125 is never passed), so the
`/analyze_issue` branch raises `TypeError` before any response is built.
The `/generate_template` branch raises `KeyError` when the analysis dict
lacks a key read by the f-string. The 15-second wall-clock check of lines
145-148 is an external monitoring concern with no computational content in
a timeless model, where elapsed time is zero and the status is untouched. -/
def api_endpoint (endpoint : String) (data : RequestData) : Except String ApiResponse :=
  if endpoint = "/analyze_issue" then
    Except.error "TypeError: analyze_issue() missing 1 required positional argument: conn"
  else if endpoint = "/generate_template" then
    match generate_template_dict (data.issue_description.getD "")
        (data.analysis.getD emptyAnalysisDict) with
    | some t => Except.ok ⟨"success", ResponseData.templateData t⟩
    | none => Except.error "KeyError"
  else if endpoint = "/summarize" then
    Except.ok ⟨"success", ResponseData.summaryData
      (summarize_conversation (list_messages init_db_conversations (data.issue_id.getD 0)))⟩
  else
    Except.ok ⟨"success", ResponseData.empty⟩

/-- Decomposition of a character sequence into its lines: the segments
between newline characters (a trailing newline yields a final empty
line, as Python's `str.split` on newline would). -/
def splitLines : List Char → List (List Char)
  | [] => [[]]
  | c :: cs =>
    if c = '\n' then [] :: splitLines cs
    else (c :: (splitLines cs).headI) :: (splitLines cs).tail

/-- Number of lines equal to `target`. -/
def countLine (target : List Char) (ls : List (List Char)) : Nat :=
  ls.countP (fun l => l == target)

/-- The critical-notice line as rendered by the template when
`has_critical_issues` is true. -/
def noticeLine : List Char :=
  "- Note: Critical issues detected that need urgent attention.".data

/-- The rendered template up to and including the `1. ` marker that
opens the recommended-step section (all f-string fragments before the
interpolated step expression of line 101). -/
def templateBeforeStep (issue_description : String) (analysis : Analysis) : String :=
  "\nDear Customer,\n\nThank you for reaching out regarding: \"" ++ issue_description ++
  "\".\n\nBased on our analysis:\n- Issue Severity: " ++ analysis.severity ++
  "\n- Past Issues: " ++ toString analysis.past_issues_count ++
  " previous issues\n- " ++ criticalNotice analysis.has_critical_issues ++
  "\n\nRecommended Steps:\n1. "

/-- The fixed sign-off following the recommended step. -/
def templateAfterStep : String := "\n\nBest regards,\nSupport Team\n"

end SupportApp

namespace SupportApp

/-- C1: the classifier lowercases the description once and scans the
keyword table in the fixed order High, Normal, Low, returning the first
severity with any substring match; hence a description with both a High
and a Low keyword classifies High, one with only Low keywords classifies
Low, and one with no keyword (in particular the empty string) classifies
Normal. -/
theorem classify_priority_order (d : String) :
    classify d =
      (if matchesSet ["failure", "crash", "urgent"] d = true then "High"
       else if matchesSet ["issue", "problem"] d = true then "Normal"
       else if matchesSet ["glitch", "minor"] d = true then "Low"
       else "Normal")
    ∧ (matchesSet ["failure", "crash", "urgent"] d = true →
        matchesSet ["glitch", "minor"] d = true → classify d = "High")
    ∧ (matchesSet ["glitch", "minor"] d = true →
        matchesSet ["failure", "crash", "urgent"] d = false →
        matchesSet ["issue", "problem"] d = false → classify d = "Low")
    ∧ (matchesSet ["failure", "crash", "urgent"] d = false →
        matchesSet ["issue", "problem"] d = false →
        matchesSet ["glitch", "minor"] d = false → classify d = "Normal")
    ∧ classify "" = "Normal" := by
  have hmain : classify d =
      (if matchesSet ["failure", "crash", "urgent"] d = true then "High"
       else if matchesSet ["issue", "problem"] d = true then "Normal"
       else if matchesSet ["glitch", "minor"] d = true then "Low"
       else "Normal") := by
    cases hH : (["failure", "crash", "urgent"] : List String).any
        (fun w => hasSubstr w.data (toLowerStr d).data) <;>
      cases hN : (["issue", "problem"] : List String).any
          (fun w => hasSubstr w.data (toLowerStr d).data) <;>
        cases hL : (["glitch", "minor"] : List String).any
            (fun w => hasSubstr w.data (toLowerStr d).data) <;>
          simp [classify, keywords, matchesSet, List.find?, hH, hN, hL]
  refine ⟨hmain, ?_, ?_, ?_, by decide⟩
  · intro h1 h2
    rw [hmain]
    simp [h1]
  · intro h1 h2 h3
    rw [hmain]
    simp [h1, h2, h3]
  · intro h1 h2 h3
    rw [hmain]
    simp [h1, h2, h3]

/-- Witness for C1 at concrete descriptions. -/
theorem classify_priority_order_witness :
    classify "URGENT glitch" = "High" ∧ classify "minor glitch" = "Low" ∧
      classify "hello" = "Normal" :=
  ⟨(classify_priority_order "URGENT glitch").2.1 (by decide) (by decide),
   (classify_priority_order "minor glitch").2.2.1 (by decide) (by decide) (by decide),
   (classify_priority_order "hello").2.2.2.1 (by decide) (by decide) (by decide)⟩

/-- C2: the escalation check is true exactly when the store holds an
issue of the customer with severity High, status Open and `created_at`
strictly earlier than `now` minus 24 hours (86400 seconds); an issue
created exactly 24 hours before `now` is not flagged, one created 24
hours plus one second before `now` is flagged. -/
theorem escalation_boundary (store : List Issue) (customer_id : String) (now : Int) :
    (hasUnattendedCritical store customer_id now = true ↔
      ∃ i ∈ store, i.customer_id = customer_id ∧ i.severity = "High" ∧
        i.status = "Open" ∧ i.created_at < now - 86400)
    ∧ (∀ d p r, hasUnattendedCritical
        [⟨customer_id, d, now - 86400, "High", "Open", p, r⟩] customer_id now = false)
    ∧ (∀ d p r, hasUnattendedCritical
        [⟨customer_id, d, now - 86401, "High", "Open", p, r⟩] customer_id now = true) := by
  refine ⟨?_, ?_, ?_⟩
  · simp [hasUnattendedCritical, ← List.countP_eq_length_filter, List.countP_pos_iff,
      Bool.and_eq_true, beq_iff_eq, decide_eq_true_eq, and_assoc]
  · intro d p r
    simp [hasUnattendedCritical]
  · intro d p r
    simp [hasUnattendedCritical]

/-- C9: the severity returned as the first component of `analyze_issue`
equals the `severity` field stored inside the returned analysis. -/
theorem analyze_severity_consistent (issue_description customer_id product_id : String)
    (store : List Issue) (now : Int) :
    (analyze_issue issue_description customer_id product_id store now).1
      = (analyze_issue issue_description customer_id product_id store now).2.severity := rfl

/-- C6: the similar-issue entries are in bijection with the store's
retrieval rows, position by position (no re-sorting); each entry carries
the row's description, its resolution verbatim when present and
non-empty, and the literal placeholder when the resolution is absent or
empty. -/
theorem similar_issue_resolutions (store : List Issue) (product_id : String) :
    (similarEntries (find_similar store product_id)).length
        = (find_similar store product_id).length
    ∧ ∀ k (hk : k < (find_similar store product_id).length)
        (ho : k < (similarEntries (find_similar store product_id)).length),
        ((similarEntries (find_similar store product_id)).get ⟨k, ho⟩).description
            = ((find_similar store product_id).get ⟨k, hk⟩).1
        ∧ (∀ r, ((find_similar store product_id).get ⟨k, hk⟩).2 = some r → r ≠ "" →
            ((similarEntries (find_similar store product_id)).get ⟨k, ho⟩).resolution = r)
        ∧ (((find_similar store product_id).get ⟨k, hk⟩).2 = none ∨
            ((find_similar store product_id).get ⟨k, hk⟩).2 = some "" →
            ((similarEntries (find_similar store product_id)).get ⟨k, ho⟩).resolution
              = "No resolution provided") := by
  refine ⟨by simp [similarEntries], ?_⟩
  intro k hk ho
  refine ⟨?_, ?_, ?_⟩
  · simp [similarEntries, List.get_eq_getElem, List.getElem_map]
  · intro r hr hne
    simp [similarEntries, List.get_eq_getElem, List.getElem_map] at *
    simp [hr, resolutionOrDefault, hne]
  · intro hcase
    rcases hcase with h | h <;>
      · simp [similarEntries, List.get_eq_getElem, List.getElem_map] at *
        simp [h, resolutionOrDefault]

/-- Witness for C6 on the seeded store: product PROD001 has one resolved
issue whose resolution is emitted verbatim. -/
theorem similar_issue_resolutions_witness :
    ((similarEntries (find_similar init_db_issues "PROD001")).get ⟨0, by decide⟩).resolution
      = "Restart the application" :=
  ((similar_issue_resolutions init_db_issues "PROD001").2 0 (by decide) (by decide)).2.1
    "Restart the application" (by decide) (by decide)

/-- Folding string append over a list distributes over a prepended
accumulator. -/
theorem string_foldl_append (l : List String) (a b : String) :
    l.foldl (fun r s => r ++ s) (a ++ b) = a ++ l.foldl (fun r s => r ++ s) b := by
  induction l generalizing b with
  | nil => rfl
  | cons h t ih => rw [List.foldl_cons, List.foldl_cons, String.append_assoc, ih]

/-- Joining a non-empty list of strings prepends its head. -/
theorem string_join_cons (s : String) (l : List String) :
    String.join (s :: l) = s ++ String.join l := by
  show List.foldl (fun r s => r ++ s) ("" ++ s) l = s ++ String.join l
  rw [String.empty_append]
  nth_rewrite 1 [show s = s ++ "" from (String.append_empty s).symm]
  rw [string_foldl_append l s ""]
  rfl

/-- Folding the summary line accumulator from any starting string appends
the joined per-message lines. -/
theorem summarize_fold_general (l : List (String × String)) (a : String) :
    l.foldl (fun summary p =>
      summary ++ "- " ++ p.2 ++ ": " ++ String.mk (p.1.data.take 50) ++ "...\n") a
    = a ++ String.join (l.map (fun p =>
        "- " ++ p.2 ++ ": " ++ String.mk (p.1.data.take 50) ++ "...\n")) := by
  induction l generalizing a with
  | nil => simp [String.join]
  | cons h t ih =>
    rw [List.foldl_cons, ih, List.map_cons, string_join_cons]
    simp [String.append_assoc]

/-- C5: each conversation message yields one summary line carrying the
sender and the first 50 characters of the message, with the `...` marker
appended unconditionally — in particular a message of at most 50
characters is emitted whole and still followed by `...`, and a
1000-character message yields its first 50 characters (a segment of
length 50 that the rest of the message extends) followed by `...`. -/
theorem summary_truncation (msgs : List (String × String)) (m s : String) :
    summarize_conversation msgs
      = "Conversation Summary:\n" ++ String.join (msgs.map (fun p =>
          "- " ++ p.2 ++ ": " ++ String.mk (p.1.data.take 50) ++ "...\n"))
    ∧ (m.data.length ≤ 50 →
        summarize_conversation [(m, s)]
          = "Conversation Summary:\n" ++ ("- " ++ s ++ ": " ++ m ++ "...\n"))
    ∧ (m.data.length = 1000 →
        summarize_conversation [(m, s)]
          = "Conversation Summary:\n"
            ++ ("- " ++ s ++ ": " ++ String.mk (m.data.take 50) ++ "...\n")
        ∧ (m.data.take 50).length = 50
        ∧ m.data.take 50 ++ m.data.drop 50 = m.data) := by
  refine ⟨summarize_fold_general msgs "Conversation Summary:\n", ?_, ?_⟩
  · intro hle
    have hm : String.mk (m.data.take 50) = m := by
      rw [List.take_of_length_le hle]
    simp [summarize_conversation, hm, String.append_assoc]
  · intro h1000
    refine ⟨by simp [summarize_conversation, String.append_assoc], ?_, ?_⟩
    · rw [List.length_take, h1000]
      omega
    · exact List.take_append_drop 50 m.data

/-- Witness for C5: a 5-character message is emitted whole and still ends
in the unconditional truncation marker. -/
theorem summary_truncation_witness :
    summarize_conversation [("Hello", "Customer")]
      = "Conversation Summary:\n" ++ ("- " ++ "Customer" ++ ": " ++ "Hello" ++ "...\n") :=
  (summary_truncation [] "Hello" "Customer").2.1 (by decide)

/-- C4: the recommended-step section of the rendered template is the
resolution of the first entry of `similar_issues` when that list is
non-empty, and the literal fallback text when it is empty; the rest of
the template is unchanged either way. -/
theorem template_recommended_step (d : String) (a : Analysis) :
    (a.similar_issues = [] →
      generate_template d a
        = templateBeforeStep d a ++ "Please provide more details." ++ templateAfterStep)
    ∧ ∀ x xs, a.similar_issues = x :: xs →
        generate_template d a
          = templateBeforeStep d a ++ x.resolution ++ templateAfterStep := by
  constructor
  · intro h
    simp [generate_template, templateBeforeStep, templateAfterStep, recommendedStep, h,
      String.append_assoc]
  · intro x xs h
    simp [generate_template, templateBeforeStep, templateAfterStep, recommendedStep, h,
      String.append_assoc]

/-- Witness for C4: with no similar issues the rendered step is the
fallback prompt. -/
theorem template_recommended_step_witness :
    generate_template "Login failure"
        { past_issues_count := 0, similar_issues := [], severity := "High",
          has_critical_issues := false }
      = templateBeforeStep "Login failure"
          { past_issues_count := 0, similar_issues := [], severity := "High",
            has_critical_issues := false }
        ++ "Please provide more details." ++ templateAfterStep :=
  (template_recommended_step "Login failure"
    { past_issues_count := 0, similar_issues := [], severity := "High",
      has_critical_issues := false }).1 rfl

/-- C7 counterexample: template generation does have an error condition —
with the analysis dict missing (defaulted by the dispatch layer to the
empty mapping), the f-string's key accesses raise KeyError instead of
producing text. -/
theorem template_keyerror_counterexample :
    generate_template_dict "Login failure" emptyAnalysisDict = none
    ∧ api_endpoint "/generate_template"
        ⟨some "Login failure", none, none, none, none⟩ = Except.error "KeyError" :=
  ⟨rfl, rfl⟩

/-- C7 amended: template rendering succeeds exactly when the supplied
analysis mapping carries all four keys the f-string reads (`severity`,
`past_issues_count`, `similar_issues`, `has_critical_issues`); when any
is missing — in particular for the dispatch-defaulted empty mapping — it
raises KeyError. -/
theorem template_render_totality (d : String) (a : AnalysisDict) :
    (generate_template_dict d a).isSome = true ↔
      (a.severity.isSome = true ∧ a.past_issues_count.isSome = true ∧
       a.similar_issues.isSome = true ∧ a.has_critical_issues.isSome = true) := by
  obtain ⟨sev, n, sims, crit⟩ := a
  cases sev <;> cases n <;> cases sims <;> cases crit <;> simp [generate_template_dict]

/-- C8: the `/analyze_issue` dispatch branch never produces a response —
line 126 calls `analyze_issue` without the `conn` argument its signature
requires (the connection built on line 125 is unused), so the call raises
TypeError before any response is assembled. -/
theorem analyze_endpoint_type_error :
    api_endpoint "/analyze_issue"
        ⟨some "Login failure", some "CUST001", some "PROD001", none, none⟩
      = Except.error
          "TypeError: analyze_issue() missing 1 required positional argument: conn" := rfl

/-- C10: dispatching any endpoint other than the three known routes
leaves the initial response untouched: status success with an empty data
mapping, not an error. -/
theorem unknown_endpoint_success (e : String) (data : RequestData)
    (h1 : e ≠ "/analyze_issue") (h2 : e ≠ "/generate_template") (h3 : e ≠ "/summarize") :
    api_endpoint e data = Except.ok ⟨"success", ResponseData.empty⟩ := by
  simp [api_endpoint, h1, h2, h3]

/-- Witness for C10 at a concrete unknown endpoint. -/
theorem unknown_endpoint_success_witness :
    api_endpoint "/unknown" ⟨none, none, none, none, none⟩
      = Except.ok ⟨"success", ResponseData.empty⟩ :=
  unknown_endpoint_success "/unknown" ⟨none, none, none, none, none⟩
    (by decide) (by decide) (by decide)

/-- `splitLines` always yields a non-empty list of lines. -/
theorem splitLines_eta (l : List Char) :
    splitLines l = (splitLines l).headI :: (splitLines l).tail := by
  cases l with
  | nil => rfl
  | cons c cs =>
    simp only [splitLines]
    split <;> simp

/-- A leading newline opens a fresh empty line. -/
theorem splitLines_newline_cons (b : List Char) :
    splitLines ('\n' :: b) = [] :: splitLines b := by
  simp [splitLines]

/-- A leading newline segment opens a fresh empty line. -/
theorem splitLines_nl_append (b : List Char) :
    splitLines (['\n'] ++ b) = [] :: splitLines b :=
  splitLines_newline_cons b

/-- A newline-free segment extends the first line of what follows. -/
theorem splitLines_append (a b : List Char) (h : ∀ c ∈ a, c ≠ '\n') :
    splitLines (a ++ b) = (a ++ (splitLines b).headI) :: (splitLines b).tail := by
  induction a with
  | nil => simpa using splitLines_eta b
  | cons c a ih =>
    have hc : ¬(c = '\n') := h c (List.mem_cons_self c a)
    have ha : ∀ x ∈ a, x ≠ '\n' := fun x hx => h x (List.mem_cons_of_mem c hx)
    rw [List.cons_append]
    simp only [splitLines, if_neg hc]
    rw [ih ha]
    simp

/-- The salutation line differs from the notice line and from the bare
bullet, whatever the quoted description. -/
theorem line_thank_ne (x : List Char) :
    (("Thank you for reaching out regarding: \"".data ++ x) == noticeLine) = false
    ∧ (("Thank you for reaching out regarding: \"".data ++ x) == "- ".data) = false := by
  constructor <;>
  · rw [beq_eq_false_iff_ne]
    intro h
    have h2 : ("Thank you for reaching out regarding: \"".data ++ x)[0]? = _ :=
      congrArg (fun l : List Char => l[0]?) h
    rw [show ("Thank you for reaching out regarding: \"".data ++ x)[0]? = some 'T'
        from rfl] at h2
    exact absurd h2 (by decide)

/-- The severity line differs from the notice line and from the bare
bullet, whatever the severity text. -/
theorem line_sev_ne (x : List Char) :
    (("- Issue Severity: ".data ++ x) == noticeLine) = false
    ∧ (("- Issue Severity: ".data ++ x) == "- ".data) = false := by
  constructor <;>
  · rw [beq_eq_false_iff_ne]
    intro h
    have h2 : ("- Issue Severity: ".data ++ x)[2]? = _ :=
      congrArg (fun l : List Char => l[2]?) h
    rw [show ("- Issue Severity: ".data ++ x)[2]? = some 'I' from rfl] at h2
    exact absurd h2 (by decide)

/-- The past-issues line differs from the notice line and from the bare
bullet, whatever the rendered count. -/
theorem line_past_ne (x : List Char) :
    (("- Past Issues: ".data ++ x) == noticeLine) = false
    ∧ (("- Past Issues: ".data ++ x) == "- ".data) = false := by
  constructor <;>
  · rw [beq_eq_false_iff_ne]
    intro h
    have h2 : ("- Past Issues: ".data ++ x)[2]? = _ :=
      congrArg (fun l : List Char => l[2]?) h
    rw [show ("- Past Issues: ".data ++ x)[2]? = some 'P' from rfl] at h2
    exact absurd h2 (by decide)

/-- The recommended-step line differs from the notice line and from the
bare bullet, whatever the step text. -/
theorem line_step_ne (x : List Char) :
    (("1. ".data ++ x) == noticeLine) = false
    ∧ (("1. ".data ++ x) == "- ".data) = false := by
  constructor <;>
  · rw [beq_eq_false_iff_ne]
    intro h
    have h2 : ("1. ".data ++ x)[0]? = _ :=
      congrArg (fun l : List Char => l[0]?) h
    rw [show ("1. ".data ++ x)[0]? = some '1' from rfl] at h2
    exact absurd h2 (by decide)

/-- C3 counterexample: with `has_critical_issues` false the rendered
template still contains the bullet of the critical-notice slot as the
placeholder line `- ` — the line is not omitted. -/
theorem critical_notice_counterexample :
    "- ".data ∈ splitLines (generate_template "Login failure"
      { past_issues_count := 0, similar_issues := [], severity := "High",
        has_critical_issues := false }).data := by decide

set_option maxRecDepth 8000 in
set_option maxHeartbeats 4000000 in
/-- C3 amended: for any description, severity text, rendered count and
step text free of newline characters, the rendered template splits into a
fixed list of lines in which the critical-notice slot is the line
`- ` followed by the conditional notice text; exactly one line equals the
critical-notice line when `has_critical_issues` is true and none does
when it is false, but in the false case the slot is rendered as the
placeholder line `- ` (exactly once) rather than being omitted. -/
theorem critical_notice_rendering (d : String) (a : Analysis)
    (hd : ∀ c ∈ d.data, c ≠ '\n')
    (hs : ∀ c ∈ a.severity.data, c ≠ '\n')
    (hn : ∀ c ∈ (toString a.past_issues_count).data, c ≠ '\n')
    (hr : ∀ c ∈ (recommendedStep a.similar_issues).data, c ≠ '\n') :
    splitLines (generate_template d a).data
      = [[], "Dear Customer,".data, [],
         "Thank you for reaching out regarding: \"".data ++ d.data ++ "\".".data, [],
         "Based on our analysis:".data,
         "- Issue Severity: ".data ++ a.severity.data,
         "- Past Issues: ".data ++ (toString a.past_issues_count).data
           ++ " previous issues".data,
         "- ".data ++ (criticalNotice a.has_critical_issues).data,
         [], "Recommended Steps:".data,
         "1. ".data ++ (recommendedStep a.similar_issues).data,
         [], "Best regards,".data, "Support Team".data, []]
    ∧ countLine noticeLine (splitLines (generate_template d a).data)
        = (if a.has_critical_issues then 1 else 0)
    ∧ countLine "- ".data (splitLines (generate_template d a).data)
        = (if a.has_critical_issues then 0 else 1) := by
  have hcrit : ∀ c ∈ (criticalNotice a.has_critical_issues).data, c ≠ '\n' := by
    cases a.has_critical_issues <;> simp [criticalNotice]
  have hlines : splitLines (generate_template d a).data
      = [[], "Dear Customer,".data, [],
         "Thank you for reaching out regarding: \"".data ++ d.data ++ "\".".data, [],
         "Based on our analysis:".data,
         "- Issue Severity: ".data ++ a.severity.data,
         "- Past Issues: ".data ++ (toString a.past_issues_count).data
           ++ " previous issues".data,
         "- ".data ++ (criticalNotice a.has_critical_issues).data,
         [], "Recommended Steps:".data,
         "1. ".data ++ (recommendedStep a.similar_issues).data,
         [], "Best regards,".data, "Support Team".data, []] := by
    unfold generate_template
    repeat rw [String.data_append]
    repeat rw [List.append_assoc]
    rw [show ("\nDear Customer,\n\nThank you for reaching out regarding: \"").data
          = ['\n'] ++ ("Dear Customer,".data ++ (['\n'] ++ (['\n'] ++
            "Thank you for reaching out regarding: \"".data))) from by decide,
        show ("\".\n\nBased on our analysis:\n- Issue Severity: ").data
          = "\".".data ++ (['\n'] ++ (['\n'] ++ ("Based on our analysis:".data
            ++ (['\n'] ++ "- Issue Severity: ".data)))) from by decide,
        show ("\n- Past Issues: ").data
          = ['\n'] ++ "- Past Issues: ".data from by decide,
        show (" previous issues\n- ").data
          = " previous issues".data ++ (['\n'] ++ "- ".data) from by decide,
        show ("\n\nRecommended Steps:\n1. ").data
          = ['\n'] ++ (['\n'] ++ ("Recommended Steps:".data ++ (['\n'] ++ "1. ".data)))
          from by decide,
        show ("\n\nBest regards,\nSupport Team\n").data
          = ['\n'] ++ (['\n'] ++ ("Best regards,".data ++ (['\n'] ++
            ("Support Team".data ++ ['\n'])))) from by decide]
    repeat rw [List.append_assoc]
    rw [splitLines_nl_append,
        splitLines_append "Dear Customer,".data _ (by decide),
        splitLines_nl_append, splitLines_nl_append,
        splitLines_append "Thank you for reaching out regarding: \"".data _ (by decide),
        splitLines_append d.data _ hd,
        splitLines_append "\".".data _ (by decide),
        splitLines_nl_append, splitLines_nl_append,
        splitLines_append "Based on our analysis:".data _ (by decide),
        splitLines_nl_append,
        splitLines_append "- Issue Severity: ".data _ (by decide),
        splitLines_append a.severity.data _ hs,
        splitLines_nl_append,
        splitLines_append "- Past Issues: ".data _ (by decide),
        splitLines_append (toString a.past_issues_count).data _ hn,
        splitLines_append " previous issues".data _ (by decide),
        splitLines_nl_append,
        splitLines_append "- ".data _ (by decide),
        splitLines_append (criticalNotice a.has_critical_issues).data _ hcrit,
        splitLines_nl_append, splitLines_nl_append,
        splitLines_append "Recommended Steps:".data _ (by decide),
        splitLines_nl_append,
        splitLines_append "1. ".data _ (by decide),
        splitLines_append (recommendedStep a.similar_issues).data _ hr,
        splitLines_nl_append, splitLines_nl_append,
        splitLines_append "Best regards,".data _ (by decide),
        splitLines_nl_append,
        splitLines_append "Support Team".data _ (by decide),
        splitLines_newline_cons]
    simp [splitLines, List.headI, List.append_assoc]
  refine ⟨hlines, ?_, ?_⟩ <;> rw [hlines] <;> cases hcf : a.has_critical_issues <;>
    simp [countLine, List.countP_cons, List.countP_nil, criticalNotice, noticeLine]

/-- Witness for C3 amended, on a concrete analysis in each flag state. -/
theorem critical_notice_rendering_witness :
    countLine noticeLine (splitLines (generate_template "Login failure"
        { past_issues_count := 0, similar_issues := [], severity := "High",
          has_critical_issues := true }).data) = 1
    ∧ countLine "- ".data (splitLines (generate_template "Login failure"
        { past_issues_count := 0, similar_issues := [], severity := "High",
          has_critical_issues := false }).data) = 1 := by
  constructor
  · have h := critical_notice_rendering "Login failure"
      { past_issues_count := 0, similar_issues := [], severity := "High",
        has_critical_issues := true } (by decide) (by decide) (by decide) (by decide)
    simpa using h.2.1
  · have h := critical_notice_rendering "Login failure"
      { past_issues_count := 0, similar_issues := [], severity := "High",
        has_critical_issues := false } (by decide) (by decide) (by decide) (by decide)
    simpa using h.2.2

end SupportApp
